import Mathlib

/-!
Verification development for the pantrade-firebase-functions wallet/ledger core.

The TypeScript cloud functions are shallowly embedded as pure Lean functions
over an explicit document-store state.  Money amounts are modelled as exact
rationals (JS numbers carry exact decimal literals in every code path the
ledger uses; all arithmetic here is +, -, *, min, max and comparisons).
Firestore transactions are modelled as functions `DB -> Except Err DB`:
a thrown error aborts the transaction, so an `error` result commits nothing.
Gateway (Paystack) calls are modelled by an oracle record passed in.
-/

namespace PanTrade

/-- Service charge, from `fees.utils.ts` (current version, also covered by the
repo's `fees.utils.test.ts` and the service-charge update changelog):
`rawCharge = subtotal * 0.055 + 100`, capped at 2000. -/
def calculateServiceCharge (subtotal : ℚ) : ℚ :=
  min (subtotal * 0.055 + 100) 2000

/-- Stale copy of the service-charge function also present in the repository
(`functions/src/fees/fees.utils.ts` variant: 5.5 percent capped at 500, no
base fee).  The co-located test suite and the repo's changelog document the
`calculateServiceCharge` formula above as the active one; this older variant is
kept here only to record the discrepancy. -/
def calculateServiceChargeLegacy (subtotal : ℚ) : ℚ :=
  min (subtotal * 0.055) 500

/-- Commission-rate tiers, from `getCommissionRate` in `order.utils.ts`. -/
def getCommissionRate (monthlySales : ℚ) : ℚ :=
  if 150000 ≤ monthlySales then 0.03
  else if 50000 ≤ monthlySales then 0.05
  else 0.07

/-- Major-to-minor currency unit conversion, from `paystack.utils.ts`. -/
def calculateAmount (amountInNaira : ℚ) : ℚ :=
  amountInNaira * 100

/-- Error taxonomy: the `HttpsError` codes raised by the business logic inside
the handlers, with their message strings.  (At the wire each handler's outer
`catch` re-wraps these as `internal`; the spec names the inner business error,
which is what we model.)  `payoutFailed` is the spec's name for a Paystack
gateway call throwing, which aborts the enclosing transaction. -/
inductive Err where
  | invalidArgument (msg : String)
  | notFound (msg : String)
  | alreadyExists (msg : String)
  | failedPrecondition (msg : String)
  | permissionDenied (msg : String)
  | deadlineExceeded (msg : String)
  | payoutFailed (msg : String)
  | internalErr (msg : String)
deriving DecidableEq, Repr

/-- One wallet ledger entry, union of the fields written by the settlement,
withdrawal and refund code paths (absent fields are `none`). -/
structure TransactionEntry where
  type : String
  status : String
  source : String
  amount : ℚ
  reference : String
  createdAt : String
  totalPaid : Option ℚ := none
  orderId : Option String := none
  vendorId : Option String := none
  userId : Option String := none
  subtotal : Option ℚ := none
  deliveryFee : Option ℚ := none
  serviceFee : Option ℚ := none
  vendorCommission : Option ℚ := none
  vendorEarnings : Option ℚ := none
  commissionRate : Option ℚ := none
  appliedRewardType : Option String := none
  rewardDiscountAmount : Option ℚ := none
  originalTotalBeforeReward : Option ℚ := none
  platformDebtAmount : Option ℚ := none
  platformDebtType : Option String := none
  platformDebtSettled : Option Bool := none
deriving DecidableEq, Repr

/-- Vendor wallet embedded in a user document; absent numeric fields read as 0
in the source (`|| 0` / `?? 0`), which the total fields here reproduce. -/
structure Wallet where
  balance : ℚ := 0
  pendingBalance : ℚ := 0
  eligibleBalance : ℚ := 0
  transactions : List TransactionEntry := []
deriving DecidableEq, Repr

/-- Customer payout bank details (`paymentInfo` on a user document). -/
structure BankInfo where
  accountNumber : String
  accountName : String
  bankCode : String
deriving DecidableEq, Repr

/-- A `users` collection document, restricted to the fields the ledger core
reads and writes. -/
structure UserDoc where
  wallet : Wallet := {}
  monthlySales : List (String × ℚ) := []
  paymentInfo : Option BankInfo := none
deriving DecidableEq, Repr

/-- One `timeline` entry on an order. -/
structure TimelineEntry where
  status : String
  timestamp : String
  actor : String
deriving DecidableEq, Repr

/-- An order document, both as submitted by the client and as persisted
(Firestore is schemaless; the delivery fields are added later by
`generateDeliveryCode` and `confirmOrderWithOTP`, hence `Option`). -/
structure OrderData where
  orderId : String
  userId : String
  vendorId : String
  subtotal : ℚ
  deliveryFee : ℚ
  serviceFee : ℚ
  vendorCommission : ℚ
  vendorEarnings : ℚ
  totalAmountPaid : ℚ
  paymentReference : String := ""
  paymentStatus : String := "pending"
  orderStatus : String := "pending"
  createdAt : String := ""
  updatedAt : String := ""
  deliveryCode : Option String := none
  deliveryCodeExpiresAt : Option ℚ := none
  deliveryConfirmed : Option Bool := none
  reviewed : Option Bool := none
  timeline : List TimelineEntry := []
  appliedRewardType : Option String := none
  rewardDiscountAmount : Option ℚ := none
  originalTotalBeforeReward : Option ℚ := none
  platformDebtAmount : Option ℚ := none
  platformDebtType : Option String := none
  platformDebtSettled : Option Bool := none
deriving DecidableEq, Repr

/-- A `refundRequests` document (snapshot of the order's financial fields). -/
structure RefundRequest where
  orderId : String
  userId : String
  vendorId : String
  amount : ℚ
  subtotal : ℚ
  deliveryFee : ℚ
  serviceFee : ℚ
  vendorEarnings : ℚ
  totalPaid : ℚ
  reason : String
  status : String
  transferReference : Option String := none
  rejectionReason : Option String := none
  approvedAt : Option String := none
  reviewedAt : Option String := none
deriving DecidableEq, Repr

/-- A `withdrawalRequest` document. -/
structure WithdrawalRequest where
  vendorId : String
  amount : ℚ
  bankName : String
  bankCode : String
  accountNumber : String
  accountName : String
  status : String
  requestedAt : Option String := none
  transferReference : Option String := none
  rejectionReason : Option String := none
  approvedAt : Option String := none
  reviewedAt : Option String := none
deriving DecidableEq, Repr

/-- One `referralHistory` entry. -/
structure ReferralHistoryEntry where
  referredCustomerId : String
  pointsEarned : ℕ
  date : String
  orderId : Option String := none
deriving DecidableEq, Repr

/-- A `referrals` collection document, per the `ReferralModel` interface. -/
structure ReferralModel where
  vendorId : String
  storeName : String
  vendorLogoUrl : String
  totalReferralPoints : ℕ
  weeklyReferralPoints : ℕ
  referralCode : String
  referredCustomersCount : ℕ
  successfulReferralsCount : ℕ
  referralHistory : List ReferralHistoryEntry
  lastReferralUpdate : String
  isActive : Bool
  totalRewardsClaimed : ℕ
  lastLeaderboardPosition : ℕ
  totalFeaturedSpots : ℕ
deriving DecidableEq, Repr

/-- A `vendors` collection document (read by the referral engine). -/
structure VendorDoc where
  name : String
  logoUrl : Option String := none
  referralCode : Option String := none
deriving DecidableEq, Repr

/-- The relevant slice of the Firestore database, collections as association
lists keyed by document id. -/
structure DB where
  orders : List (String × OrderData) := []
  users : List (String × UserDoc) := []
  refundRequests : List (String × RefundRequest) := []
  withdrawalRequests : List (String × WithdrawalRequest) := []
  referrals : List (String × ReferralModel) := []
  vendors : List (String × VendorDoc) := []
deriving DecidableEq, Repr

/-- Document lookup in a collection. -/
def getDoc {α : Type} (l : List (String × α)) (k : String) : Option α :=
  match l.find? (fun p => p.1 == k) with
  | some p => some p.2
  | none => none

/-- Document write (set/update): replace the binding if present, else append. -/
def setDoc {α : Type} (l : List (String × α)) (k : String) (v : α) :
    List (String × α) :=
  match l with
  | [] => [(k, v)]
  | p :: rest => if p.1 == k then (k, v) :: rest else p :: setDoc rest k v

/-- Read of one month's sales bucket (`stats.monthlySales[key] || 0`). -/
def getMonth (sales : List (String × ℚ)) (key : String) : ℚ :=
  match getDoc sales key with
  | some v => v
  | none => 0

/-- Write of one month's sales bucket. -/
def setMonth (sales : List (String × ℚ)) (key : String) (v : ℚ) :
    List (String × ℚ) :=
  setDoc sales key v

/-- Firestore `FieldValue.arrayUnion`: append the element unless an identical
element is already present. -/
def arrayUnion {α : Type} [DecidableEq α] (l : List α) (x : α) : List α :=
  if x ∈ l then l else l ++ [x]

/-- Transaction commit semantics: an aborted (errored) transaction leaves the
database unchanged. -/
def commitResult (dbS : DB) : Except Err DB → DB
  | .ok s => s
  | .error _ => dbS

/-- Settlement handler `createOrderAndLogTransaction` from `order.utils.ts`
lines 53-188: validation of the client-submitted service fee and total, then a
transaction that enforces the order-id idempotency guard, recomputes the
commission and earnings server-side, persists the order, appends a wallet
ledger entry and advances the month's sales bucket.  `monthKey` stands for
`getCurrentMonthKey()` and `nowIso` for the wall clock; `status` is the
payment status string passed by the client. -/
def createOrderAndLogTransaction (dbS : DB) (monthKey nowIso : String)
    (order : OrderData) (userId reference status : String) (totalPaid : ℚ) :
    Except Err DB :=
  if order.vendorId = "" ∨ order.orderId = "" then
    .error (.invalidArgument "Missing order details.")
  else
    let serverCalculatedServiceFee := calculateServiceCharge order.subtotal
    if 1 < |serverCalculatedServiceFee - order.serviceFee| then
      .error (.invalidArgument "Service fee mismatch.")
    else
      let order1 := { order with serviceFee := serverCalculatedServiceFee }
      let expectedTotal :=
        match order1.appliedRewardType, order1.originalTotalBeforeReward with
        | some _, some orig => orig
        | _, _ => order1.subtotal + order1.deliveryFee + order1.serviceFee
      if 1 < |totalPaid - expectedTotal| then
        .error (.invalidArgument "Total paid mismatch.")
      else
        let order2 := { order1 with totalAmountPaid := totalPaid }
        match getDoc dbS.orders order2.orderId with
        | some _ => .error (.alreadyExists "Order already exists.")
        | none =>
          match getDoc dbS.users order2.vendorId with
          | none => .error (.notFound "Vendor not found.")
          | some userDoc =>
            let currentBalance := userDoc.wallet.balance
            let currentPending := userDoc.wallet.pendingBalance
            let currentMonthSales := getMonth userDoc.monthlySales monthKey
            let totalVendorRevenue := order2.subtotal + order2.deliveryFee
            let commissionRate := getCommissionRate currentMonthSales
            let flatCommission : ℚ := 0
            let vendorCommission := flatCommission
            let vendorEarnings := totalVendorRevenue - vendorCommission
            let newMonthSales := currentMonthSales + totalVendorRevenue
            let order3 := { order2 with
              vendorCommission := vendorCommission,
              vendorEarnings := vendorEarnings }
            let newBalance := currentBalance + vendorEarnings
            let newPendingBalance := currentPending + vendorEarnings
            let transactionEntry : TransactionEntry :=
              { type := "credit"
                status := status
                source := "order"
                amount := vendorEarnings
                reference := reference
                createdAt := nowIso
                totalPaid := some totalPaid
                orderId := some order3.orderId
                vendorId := some order3.vendorId
                userId := some userId
                subtotal := some order3.subtotal
                deliveryFee := some order3.deliveryFee
                serviceFee := some order3.serviceFee
                vendorCommission := some order3.vendorCommission
                vendorEarnings := some order3.vendorEarnings
                commissionRate := some commissionRate
                appliedRewardType := order3.appliedRewardType
                rewardDiscountAmount :=
                  if order3.appliedRewardType.isSome then
                    order3.rewardDiscountAmount
                  else none
                originalTotalBeforeReward :=
                  if order3.appliedRewardType.isSome then
                    order3.originalTotalBeforeReward
                  else none
                platformDebtAmount :=
                  if order3.appliedRewardType.isSome then
                    order3.platformDebtAmount
                  else none
                platformDebtType :=
                  if order3.appliedRewardType.isSome then
                    order3.platformDebtType
                  else none
                platformDebtSettled :=
                  if order3.appliedRewardType.isSome then some false
                  else none }
            let storedOrder := { order3 with
              platformDebtSettled :=
                if order3.appliedRewardType.isSome then some false
                else order3.platformDebtSettled }
            let newUser := { userDoc with
              wallet := { userDoc.wallet with
                balance := newBalance
                pendingBalance := newPendingBalance
                transactions :=
                  arrayUnion userDoc.wallet.transactions transactionEntry }
              monthlySales :=
                setMonth userDoc.monthlySales monthKey newMonthSales }
            .ok { dbS with
              orders := setDoc dbS.orders order3.orderId storedOrder
              users := setDoc dbS.users order3.vendorId newUser }

/-- Delivery-confirmation handler `confirmOrderWithOTP` from `order.utils.ts`
lines 234-318.  `now` is the clock in the same units as the stored
`deliveryCodeExpiresAt`; `nowIsoWAT` is the UTC+1 timeline timestamp string
the handler formats from it. -/
def confirmOrderWithOTP (dbS : DB) (now : ℚ) (nowIsoWAT : String)
    (orderId vendorId enteredOtp : String) : Except Err DB :=
  if orderId = "" ∨ vendorId = "" ∨ enteredOtp = "" then
    .error (.invalidArgument "Missing orderId, vendorId, or OTP.")
  else
    match getDoc dbS.orders orderId with
    | none => .error (.notFound "Order not found.")
    | some orderData =>
      match getDoc dbS.users vendorId with
      | none => .error (.notFound "Vendor not found.")
      | some vendorData =>
        let correctOtp := orderData.deliveryCode
        let deliveryConfirmed := orderData.deliveryConfirmed
        let expired : Bool :=
          match orderData.deliveryCodeExpiresAt with
          | some expiresAt => decide (expiresAt < now)
          | none => false
        if expired then
          .error (.deadlineExceeded "OTP has expired.")
        else if deliveryConfirmed = some true then
          .error (.alreadyExists "Delivery already confirmed.")
        else if some enteredOtp ≠ correctOtp then
          .error (.permissionDenied "Incorrect OTP.")
        else
          let pendingBalance := vendorData.wallet.pendingBalance
          let eligibleBalance := vendorData.wallet.eligibleBalance
          let commission := orderData.vendorEarnings
          if pendingBalance < commission then
            .error (.failedPrecondition "Pending balance too low.")
          else
            let newVendor := { vendorData with
              wallet := { vendorData.wallet with
                pendingBalance := pendingBalance - commission
                eligibleBalance := eligibleBalance + commission } }
            let newOrder := { orderData with
              deliveryConfirmed := some true
              orderStatus := "completed"
              reviewed := some false
              timeline := arrayUnion orderData.timeline
                { status := "Order completed"
                  timestamp := nowIsoWAT
                  actor := "vendor" } }
            .ok { dbS with
              orders := setDoc dbS.orders orderId newOrder
              users := setDoc dbS.users vendorId newVendor }

/-- Payload of a Paystack `transferrecipient` call. -/
structure RecipientPayload where
  type : String
  name : String
  account_number : String
  bank_code : String
  currency : String
deriving DecidableEq, Repr

/-- Payload of a Paystack `transfer` call. -/
structure TransferPayload where
  source : String
  amount : ℚ
  recipient : String
  reason : String
deriving DecidableEq, Repr

/-- Oracle for the payout gateway: `none` models the HTTP call throwing
(non-2xx), `some` carries the recipient code respectively the transfer
reference returned on success. -/
structure Gateway where
  createRecipient : RecipientPayload → Option String
  transfer : TransferPayload → Option String

/-- Withdrawal-request handler `requestVendorWithdrawal` from the withdrawal
module lines 21-70: reserves `amount` out of `eligibleBalance` and creates a
pending request.  `reqId` is the fresh auto-id Firestore would mint and
`now` the request timestamp.  Note the source does not check `bankCode`. -/
def requestVendorWithdrawal (dbS : DB) (reqId now : String)
    (vendorId : String) (amount : ℚ)
    (bankName bankCode accountNumber accountName : String) : Except Err DB :=
  if vendorId = "" ∨ amount = 0 ∨ bankName = "" ∨ accountNumber = "" ∨
      accountName = "" then
    .error (.invalidArgument "Missing required fields.")
  else
    match getDoc dbS.users vendorId with
    | none => .error (.notFound "Vendor not found.")
    | some vendorDoc =>
      let eligibleBalance := vendorDoc.wallet.eligibleBalance
      if eligibleBalance < amount then
        .error (.failedPrecondition "Insufficient eligible balance.")
      else
        let newVendor := { vendorDoc with
          wallet := { vendorDoc.wallet with
            eligibleBalance := eligibleBalance - amount } }
        let request : WithdrawalRequest :=
          { vendorId := vendorId
            amount := amount
            bankName := bankName
            bankCode := bankCode
            accountNumber := accountNumber
            accountName := accountName
            status := "pending"
            requestedAt := some now }
        .ok { dbS with
          users := setDoc dbS.users vendorId newVendor
          withdrawalRequests := setDoc dbS.withdrawalRequests reqId request }

/-- Withdrawal-rejection handler `rejectVendorWithdrawal` from the withdrawal
module lines 72-127: restores the reserved amount to `eligibleBalance` and
marks the request rejected. -/
def rejectVendorWithdrawal (dbS : DB) (now : String)
    (withdrawalId reason : String) : Except Err DB :=
  if withdrawalId = "" then
    .error (.invalidArgument "Missing withdrawalId.")
  else
    match getDoc dbS.withdrawalRequests withdrawalId with
    | none => .error (.notFound "Withdrawal request not found.")
    | some withdrawalData =>
      if withdrawalData.status ≠ "pending" then
        .error (.failedPrecondition "Only pending withdrawals can be rejected.")
      else
        match getDoc dbS.users withdrawalData.vendorId with
        | none => .error (.notFound "Vendor not found.")
        | some vendorDoc =>
          let eligibleBalance := vendorDoc.wallet.eligibleBalance
          let newVendor := { vendorDoc with
            wallet := { vendorDoc.wallet with
              eligibleBalance := eligibleBalance + withdrawalData.amount } }
          let newRequest := { withdrawalData with
            status := "rejected"
            rejectionReason :=
              some (if reason = "" then "Rejected by admin" else reason)
            reviewedAt := some now }
          .ok { dbS with
            users := setDoc dbS.users withdrawalData.vendorId newVendor
            withdrawalRequests :=
              setDoc dbS.withdrawalRequests withdrawalId newRequest }

/-- Withdrawal-approval handler `approveVendorWithdrawal` from the withdrawal
module lines 129-234: after all transactional reads, calls the payout gateway
(create recipient, then transfer); a gateway throw aborts the open transaction
with no writes, modelled as `payoutFailed`; on success marks the request
approved, debits the wallet `balance` and appends a debit ledger entry.
`eligibleBalance` (already reserved at request time) is never touched here. -/
def approveVendorWithdrawal (dbS : DB) (now : String) (gw : Gateway)
    (withdrawalId : String) : Except Err DB :=
  if withdrawalId = "" then
    .error (.invalidArgument "Missing withdrawal ID.")
  else
    match getDoc dbS.withdrawalRequests withdrawalId with
    | none => .error (.notFound "Withdrawal request not found.")
    | some withdrawalData =>
      if withdrawalData.status ≠ "pending" then
        .error (.failedPrecondition "Withdrawal already processed.")
      else
        match getDoc dbS.users withdrawalData.vendorId with
        | none => .error (.notFound "Vendor not found.")
        | some vendorData =>
          let transactions := vendorData.wallet.transactions
          let recipientPayload : RecipientPayload :=
            { type := "nuban"
              name := withdrawalData.accountName
              account_number := withdrawalData.accountNumber
              bank_code := withdrawalData.bankCode
              currency := "NGN" }
          match gw.createRecipient recipientPayload with
          | none => .error (.payoutFailed "Approval failed.")
          | some recipientCode =>
            let transferPayload : TransferPayload :=
              { source := "balance"
                amount := calculateAmount withdrawalData.amount
                recipient := recipientCode
                reason :=
                  "Vendor withdrawal for ₦" ++ toString withdrawalData.amount }
            match gw.transfer transferPayload with
            | none => .error (.payoutFailed "Approval failed.")
            | some reference =>
              let newRequest := { withdrawalData with
                status := "approved"
                transferReference := some reference
                approvedAt := some now }
              let debitEntry : TransactionEntry :=
                { type := "debit"
                  status := "success"
                  source := "withdrawal"
                  amount := withdrawalData.amount
                  reference := reference
                  createdAt := now
                  vendorId := some withdrawalData.vendorId }
              let newVendor := { vendorData with
                wallet := { vendorData.wallet with
                  balance := vendorData.wallet.balance - withdrawalData.amount
                  transactions := transactions ++ [debitEntry] } }
              .ok { dbS with
                withdrawalRequests :=
                  setDoc dbS.withdrawalRequests withdrawalId newRequest
                users := setDoc dbS.users withdrawalData.vendorId newVendor }

/-- Refund-approval handler `approveRefundRequest` from the refund module
lines 93-221: after all transactional reads (refund record, customer, vendor)
and the bank-details check, calls the payout gateway; on success marks the
refund approved, credits the customer's ledger with the `amount` argument,
debits the vendor's `balance` and `pendingBalance` by the snapshot
`vendorEarnings` (no floor, `eligibleBalance` untouched) and decrements the
current month's sales bucket by subtotal+deliveryFee, floored at 0. -/
def approveRefundRequest (dbS : DB) (monthKey nowIso : String) (gw : Gateway)
    (orderId userId : String) (amount : ℚ) : Except Err DB :=
  if orderId = "" ∨ userId = "" ∨ amount = 0 then
    .error (.invalidArgument "Missing refund approval data.")
  else
    match getDoc dbS.refundRequests orderId with
    | none => .error (.notFound "Refund request not found.")
    | some refundData =>
      if refundData.status ≠ "pending" then
        .error (.failedPrecondition "Refund already processed.")
      else
        let vendorId := refundData.vendorId
        let userData := getDoc dbS.users userId
        let vendorData := getDoc dbS.users vendorId
        let bank := userData.bind (fun u => u.paymentInfo)
        match bank with
        | none => .error (.failedPrecondition "User bank details missing.")
        | some bankInfo =>
          if bankInfo.accountNumber = "" ∨ bankInfo.accountName = "" ∨
              bankInfo.bankCode = "" then
            .error (.failedPrecondition "User bank details missing.")
          else
            let recipientPayload : RecipientPayload :=
              { type := "nuban"
                name := bankInfo.accountName
                account_number := bankInfo.accountNumber
                bank_code := bankInfo.bankCode
                currency := "NGN" }
            match gw.createRecipient recipientPayload with
            | none => .error (.payoutFailed "Refund approval failed.")
            | some recipientCode =>
              let transferPayload : TransferPayload :=
                { source := "balance"
                  amount := calculateAmount refundData.amount
                  recipient := recipientCode
                  reason := "Refund for order " ++ orderId }
              match gw.transfer transferPayload with
              | none => .error (.payoutFailed "Refund approval failed.")
              | some reference =>
                let newRefund := { refundData with
                  status := "approved"
                  transferReference := some reference
                  approvedAt := some nowIso }
                match userData with
                | none => .error (.internalErr "user document missing")
                | some userDoc =>
                  let creditEntry : TransactionEntry :=
                    { type := "credit"
                      status := "success"
                      source := "refund"
                      amount := amount
                      reference := reference
                      createdAt := nowIso
                      userId := some userId }
                  let newUser := { userDoc with
                    wallet := { userDoc.wallet with
                      transactions :=
                        userDoc.wallet.transactions ++ [creditEntry] } }
                  match vendorData with
                  | none => .error (.internalErr "vendor document missing")
                  | some vendorDoc =>
                    let vendorEarnings := refundData.vendorEarnings
                    let vendorTransactions := vendorDoc.wallet.transactions
                    let updatedVendorBalance :=
                      vendorDoc.wallet.balance - vendorEarnings
                    let updatedVendorPendingBalance :=
                      vendorDoc.wallet.pendingBalance - vendorEarnings
                    let prevMonthSales :=
                      getMonth vendorDoc.monthlySales monthKey
                    let refundSalesTotal :=
                      refundData.subtotal + refundData.deliveryFee
                    let newMonthSales :=
                      max (prevMonthSales - refundSalesTotal) 0
                    let debitEntry : TransactionEntry :=
                      { type := "debit"
                        status := "success"
                        source := "refund"
                        amount := vendorEarnings
                        reference := reference
                        createdAt := nowIso
                        vendorId := some vendorId }
                    let newVendor := { vendorDoc with
                      wallet := { vendorDoc.wallet with
                        balance := updatedVendorBalance
                        pendingBalance := updatedVendorPendingBalance
                        transactions := vendorTransactions ++ [debitEntry] }
                      monthlySales :=
                        setMonth vendorDoc.monthlySales monthKey
                          newMonthSales }
                    let users1 := setDoc dbS.users userId newUser
                    .ok { dbS with
                      refundRequests :=
                        setDoc dbS.refundRequests orderId newRefund
                      users := setDoc users1 vendorId newVendor }

/-- Referral signup handler `addReferralForVendor` from `referrals.utils.ts`
lines 30-107: creates the vendor's referral record on first use (10 points,
history seeded), otherwise adds 10 to both point totals, bumps the
referred-customer count and appends a history entry. -/
def addReferralForVendor (dbS : DB) (nowIso : String)
    (vendorId referredCustomerId : String) : Except Err DB :=
  if vendorId = "" ∨ referredCustomerId = "" then
    .error (.invalidArgument "Missing vendorId or referredCustomerId")
  else
    match getDoc dbS.vendors vendorId with
    | none => .error (.notFound "Vendor not found")
    | some vendorData =>
      match getDoc dbS.referrals vendorId with
      | some data =>
        let updatedReferralHistory := data.referralHistory ++
          [{ referredCustomerId := referredCustomerId
             pointsEarned := 10
             date := nowIso }]
        let newRecord := { data with
          totalReferralPoints := data.totalReferralPoints + 10
          weeklyReferralPoints := data.weeklyReferralPoints + 10
          referredCustomersCount := data.referredCustomersCount + 1
          referralHistory := updatedReferralHistory
          lastReferralUpdate := nowIso
          isActive := true }
        .ok { dbS with referrals := setDoc dbS.referrals vendorId newRecord }
      | none =>
        let referralModel : ReferralModel :=
          { vendorId := vendorId
            storeName := vendorData.name
            vendorLogoUrl :=
              match vendorData.logoUrl with
              | some u => u
              | none => ""
            totalReferralPoints := 10
            weeklyReferralPoints := 10
            referralCode :=
              match vendorData.referralCode with
              | some c => c
              | none => ""
            referredCustomersCount := 1
            successfulReferralsCount := 0
            referralHistory :=
              [{ referredCustomerId := referredCustomerId
                 pointsEarned := 10
                 date := nowIso }]
            lastReferralUpdate := nowIso
            isActive := true
            totalRewardsClaimed := 0
            lastLeaderboardPosition := 0
            totalFeaturedSpots := 0 }
        .ok { dbS with
          referrals := setDoc dbS.referrals vendorId referralModel }

/-- Referral purchase handler `updateReferralPointsOnPurchase` from
`referrals.utils.ts` lines 109-179: requires a prior signup history entry for
the customer, then adds 40 points to both totals, bumps the
successful-referral count and appends an order-tagged history entry. -/
def updateReferralPointsOnPurchase (dbS : DB) (nowIso : String)
    (vendorId referredCustomerId orderId : String) : Except Err DB :=
  if vendorId = "" ∨ referredCustomerId = "" ∨ orderId = "" then
    .error (.invalidArgument
      "Missing required fields: vendorId, referredCustomerId, or orderId")
  else
    match getDoc dbS.referrals vendorId with
    | none => .error (.notFound "Referral record not found")
    | some referralData =>
      let hasReferral := referralData.referralHistory.any
        (fun history => history.referredCustomerId == referredCustomerId)
      if !hasReferral then
        .error (.failedPrecondition "Customer was not referred by this vendor")
      else
        let updatedReferralHistory := referralData.referralHistory ++
          [{ referredCustomerId := referredCustomerId
             pointsEarned := 40
             date := nowIso
             orderId := some orderId }]
        let newRecord := { referralData with
          totalReferralPoints := referralData.totalReferralPoints + 40
          weeklyReferralPoints := referralData.weeklyReferralPoints + 40
          successfulReferralsCount := referralData.successfulReferralsCount + 1
          referralHistory := updatedReferralHistory
          lastReferralUpdate := nowIso }
        .ok { dbS with referrals := setDoc dbS.referrals vendorId newRecord }

/-- Control-flow events used to state the placement of gateway calls relative
to the open Firestore transaction in the approval handlers. -/
inductive Evt where
  | txBegin
  | txEnd
  | readDoc (doc : String)
  | gatewayCall (endpoint : String)
  | writeDoc (doc : String)
deriving DecidableEq, Repr

/-- Success-path event trace of `approveVendorWithdrawal` (withdrawal module
lines 144-226): `db.runTransaction` opens at line 144 and its callback returns
at line 226; the two `axios.post` gateway calls at lines 184 and 192 sit
between the transactional reads (lines 145, 160) and the buffered
`transaction.update` writes (lines 204, 210). -/
def approveVendorWithdrawalTrace : List Evt :=
  [Evt.txBegin,
   Evt.readDoc "withdrawalRequest",
   Evt.readDoc "users (vendor)",
   Evt.gatewayCall "transferrecipient",
   Evt.gatewayCall "transfer",
   Evt.writeDoc "withdrawalRequest",
   Evt.writeDoc "users (vendor)",
   Evt.txEnd]

/-- Success-path event trace of `approveRefundRequest` (refund module lines
109-214): `db.runTransaction` opens at line 109; reads at lines 110, 120, 123;
gateway `axios.post` calls at lines 141 and 149; buffered `transaction.update`
writes at lines 161, 168, 196. -/
def approveRefundRequestTrace : List Evt :=
  [Evt.txBegin,
   Evt.readDoc "refundRequests",
   Evt.readDoc "users (customer)",
   Evt.readDoc "users (vendor)",
   Evt.gatewayCall "transferrecipient",
   Evt.gatewayCall "transfer",
   Evt.writeDoc "refundRequests",
   Evt.writeDoc "users (customer)",
   Evt.writeDoc "users (vendor)",
   Evt.txEnd]

/-- Phase number of an event: transaction open, reads, gateway calls, writes,
commit.  A trace whose phases are monotone performs all reads before all
gateway calls and all gateway calls before all writes. -/
def Evt.phase : Evt → ℕ
  | .txBegin => 0
  | .readDoc _ => 1
  | .gatewayCall _ => 2
  | .writeDoc _ => 3
  | .txEnd => 4

/-- An event of the trace occurs strictly inside an open transaction:
the trace brackets it between `txBegin` and `txEnd`. -/
def insideOpenTransaction (tr : List Evt) (e : Evt) : Prop :=
  ∃ mid post, tr = Evt.txBegin :: mid ++ Evt.txEnd :: post ∧ e ∈ mid

/-! Helper lemmas about the store. -/

theorem getDoc_cons {α : Type} (p : String × α) (l : List (String × α))
    (k : String) :
    getDoc (p :: l) k = if p.1 = k then some p.2 else getDoc l k := by
  by_cases h : p.1 = k
  · have hb : (p.1 == k) = true := by simp [h]
    simp [getDoc, List.find?, hb, h]
  · have hb : (p.1 == k) = false := by simp [h]
    simp [getDoc, List.find?, hb, h]

theorem setDoc_cons {α : Type} (p : String × α) (rest : List (String × α))
    (k : String) (v : α) :
    setDoc (p :: rest) k v =
      if p.1 = k then (k, v) :: rest else p :: setDoc rest k v := by
  by_cases h : p.1 = k
  · have hb : (p.1 == k) = true := by simp [h]
    simp [setDoc, hb, h]
  · have hb : (p.1 == k) = false := by simp [h]
    simp [setDoc, hb, h]

theorem getDoc_setDoc_self {α : Type} (l : List (String × α)) (k : String)
    (v : α) : getDoc (setDoc l k v) k = some v := by
  induction l with
  | nil => simp [getDoc, setDoc, List.find?]
  | cons p rest ih =>
    rw [setDoc_cons]
    by_cases h : p.1 = k
    · rw [if_pos h, getDoc_cons]
      simp
    · rw [if_neg h, getDoc_cons, if_neg h, ih]

theorem getDoc_setDoc_ne {α : Type} (l : List (String × α)) (k k' : String)
    (v : α) (h : k' ≠ k) : getDoc (setDoc l k v) k' = getDoc l k' := by
  induction l with
  | nil =>
    have hb : (k == k') = false := by simp [Ne.symm h]
    simp [getDoc, setDoc, List.find?, hb]
  | cons p rest ih =>
    rw [setDoc_cons]
    by_cases hp : p.1 = k
    · subst hp
      rw [if_pos rfl, getDoc_cons, getDoc_cons, if_neg (Ne.symm h),
        if_neg (Ne.symm h)]
    · rw [if_neg hp, getDoc_cons, getDoc_cons]
      by_cases hp' : p.1 = k'
      · simp [hp']
      · simp [hp', ih]

theorem getMonth_setMonth_self (sales : List (String × ℚ)) (key : String)
    (v : ℚ) : getMonth (setMonth sales key v) key = v := by
  simp [getMonth, setMonth, getDoc_setDoc_self]

/-- C1: for every subtotal ≥ 0, `calculateServiceCharge subtotal` equals
`min (subtotal * 0.055 + 100) 2000` and is never negative; in particular
`calculateServiceCharge 0 = 100`, and for every subtotal ≥ 34545.46 the
result is exactly 2000. -/
theorem calculateServiceCharge_spec :
    (∀ subtotal : ℚ, 0 ≤ subtotal →
      calculateServiceCharge subtotal = min (subtotal * 0.055 + 100) 2000 ∧
      0 ≤ calculateServiceCharge subtotal) ∧
    calculateServiceCharge 0 = 100 ∧
    (∀ subtotal : ℚ, 34545.46 ≤ subtotal →
      calculateServiceCharge subtotal = 2000) := by
  refine ⟨fun s hs => ⟨rfl, ?_⟩, ?_, fun s hs => ?_⟩
  · unfold calculateServiceCharge
    have h1 : (0 : ℚ) ≤ s * 0.055 + 100 := by nlinarith
    have h2 : (0 : ℚ) ≤ 2000 := by norm_num
    exact le_min h1 h2
  · unfold calculateServiceCharge
    norm_num
  · unfold calculateServiceCharge
    have h : (2000 : ℚ) ≤ s * 0.055 + 100 := by nlinarith
    exact min_eq_right h

/-- Witness for C1 at concrete subtotals 1000 and 40000. -/
theorem calculateServiceCharge_spec_witness :
    (0 : ℚ) ≤ 1000 ∧
    calculateServiceCharge 1000 = min (1000 * 0.055 + 100) 2000 ∧
    0 ≤ calculateServiceCharge 1000 ∧
    (34545.46 : ℚ) ≤ 40000 ∧
    calculateServiceCharge 40000 = 2000 :=
  ⟨by norm_num,
   (calculateServiceCharge_spec.1 1000 (by norm_num)).1,
   (calculateServiceCharge_spec.1 1000 (by norm_num)).2,
   by norm_num,
   calculateServiceCharge_spec.2.2 40000 (by norm_num)⟩

/-- C10: the settlement handler's output is insensitive to the
client-submitted `vendorCommission` and `vendorEarnings` fields of the order:
two calls whose inputs differ only in these two fields produce the exact same
result (persisted order, ledger entry, wallet and monthly-sales updates, or
the same error), because the server overwrites both fields with values it
computes from subtotal, deliveryFee and the flat commission 0. -/
theorem createOrder_ignores_client_earnings (dbS : DB)
    (monthKey nowIso : String) (order : OrderData) (vc ve : ℚ)
    (userId reference status : String) (totalPaid : ℚ) :
    createOrderAndLogTransaction dbS monthKey nowIso
      { order with vendorCommission := vc, vendorEarnings := ve }
      userId reference status totalPaid =
    createOrderAndLogTransaction dbS monthKey nowIso order
      userId reference status totalPaid := rfl

/-- Inversion of a successful settlement: every validation passed, the order
id was fresh, the vendor existed, and the committed state credits exactly
subtotal+deliveryFee minus the flat commission 0 to `balance` and
`pendingBalance` and subtotal+deliveryFee to the month's sales bucket, leaves
`eligibleBalance` unchanged, and persists an order under the submitted id. -/
theorem createOrder_ok_inv {dbS dbS' : DB} {monthKey nowIso : String}
    {order : OrderData} {userId reference status : String} {totalPaid : ℚ}
    (h : createOrderAndLogTransaction dbS monthKey nowIso order userId
      reference status totalPaid = .ok dbS') :
    ¬(order.vendorId = "" ∨ order.orderId = "") ∧
    ¬(1 < |calculateServiceCharge order.subtotal - order.serviceFee|) ∧
    ¬(1 < |totalPaid -
        (match order.appliedRewardType, order.originalTotalBeforeReward with
         | some _, some orig => orig
         | _, _ => order.subtotal + order.deliveryFee +
             calculateServiceCharge order.subtotal)|) ∧
    getDoc dbS.orders order.orderId = none ∧
    ∃ u u' so, getDoc dbS.users order.vendorId = some u ∧
      getDoc dbS'.users order.vendorId = some u' ∧
      getDoc dbS'.orders order.orderId = some so ∧
      u'.wallet.balance =
        u.wallet.balance + (order.subtotal + order.deliveryFee - 0) ∧
      u'.wallet.pendingBalance =
        u.wallet.pendingBalance + (order.subtotal + order.deliveryFee - 0) ∧
      u'.wallet.eligibleBalance = u.wallet.eligibleBalance ∧
      getMonth u'.monthlySales monthKey =
        getMonth u.monthlySales monthKey +
          (order.subtotal + order.deliveryFee) := by
  simp only [createOrderAndLogTransaction] at h
  split at h
  · exact Except.noConfusion h
  rename_i h1
  split at h
  · exact Except.noConfusion h
  rename_i h2
  split at h
  · exact Except.noConfusion h
  rename_i h3
  split at h
  · exact Except.noConfusion h
  rename_i xo horder
  split at h
  · exact Except.noConfusion h
  rename_i xu u huser
  injection h with h
  subst h
  exact ⟨h1, h2, h3, horder, u, _, _, huser, getDoc_setDoc_self _ _ _,
    getDoc_setDoc_self _ _ _, rfl, rfl, rfl, getMonth_setMonth_self _ _ _⟩

/-- C3: replaying a successful settlement call against the resulting state —
same order id, same request — hits the idempotency guard: it raises
`AlreadyExists` from inside the transaction, which aborts, leaving the whole
database (vendor wallet balances, transaction log, monthly sales, orders)
exactly as after the first call. -/
theorem createOrder_idempotency (dbS dbS' : DB)
    (monthKey nowIso monthKey2 nowIso2 : String) (order : OrderData)
    (userId reference status : String) (totalPaid : ℚ)
    (h : createOrderAndLogTransaction dbS monthKey nowIso order userId
      reference status totalPaid = .ok dbS') :
    createOrderAndLogTransaction dbS' monthKey2 nowIso2 order userId
      reference status totalPaid =
      .error (.alreadyExists "Order already exists.") ∧
    commitResult dbS' (createOrderAndLogTransaction dbS' monthKey2 nowIso2
      order userId reference status totalPaid) = dbS' := by
  obtain ⟨h1, h2, h3, -, u, u', so, -, -, hso, -⟩ := createOrder_ok_inv h
  have hsecond : createOrderAndLogTransaction dbS' monthKey2 nowIso2 order
      userId reference status totalPaid =
      .error (.alreadyExists "Order already exists.") := by
    simp only [createOrderAndLogTransaction]
    rw [if_neg h1, if_neg h2, if_neg h3, hso]
  exact ⟨hsecond, by rw [hsecond]; rfl⟩

/-- C4: a successful settlement of an order with subtotal S and deliveryFee D
against a vendor with non-negative prior balances increases the vendor's
pendingBalance and balance by exactly S + D - commission, the commission
being the flat 0, and the current month's sales bucket by exactly S + D. -/
theorem createOrder_settlement_delta (dbS dbS' : DB) (monthKey nowIso : String)
    (order : OrderData) (userId reference status : String) (totalPaid : ℚ)
    (u : UserDoc) (hu : getDoc dbS.users order.vendorId = some u)
    (_hnn : 0 ≤ u.wallet.pendingBalance ∧ 0 ≤ u.wallet.eligibleBalance)
    (h : createOrderAndLogTransaction dbS monthKey nowIso order userId
      reference status totalPaid = .ok dbS') :
    ∃ u', getDoc dbS'.users order.vendorId = some u' ∧
      u'.wallet.pendingBalance =
        u.wallet.pendingBalance + (order.subtotal + order.deliveryFee - 0) ∧
      u'.wallet.balance =
        u.wallet.balance + (order.subtotal + order.deliveryFee - 0) ∧
      getMonth u'.monthlySales monthKey =
        getMonth u.monthlySales monthKey +
          (order.subtotal + order.deliveryFee) := by
  obtain ⟨-, -, -, -, v, v', so, hv, hv', -, hb, hp, -, hm⟩ :=
    createOrder_ok_inv h
  have huv : u = v := by
    have := hu.symm.trans hv
    exact Option.some.inj this
  subst huv
  exact ⟨v', hv', hp, hb, hm⟩

/-- Concrete pre-state for the settlement witnesses: one vendor `v1` with an
empty wallet and no prior sales. -/
def settleDB0 : DB :=
  { users := [("v1", {})] }

/-- Concrete client-submitted order for the settlement witnesses; the
client-sent `vendorCommission`/`vendorEarnings` are deliberately junk values
the server must overwrite. -/
def settleOrder0 : OrderData :=
  { orderId := "o1"
    userId := "c1"
    vendorId := "v1"
    subtotal := 1000
    deliveryFee := 500
    serviceFee := 155
    vendorCommission := 77
    vendorEarnings := 999
    totalAmountPaid := 0 }

/-- Post-state of the concrete settlement. -/
def settleDB1 : DB :=
  commitResult settleDB0 (createOrderAndLogTransaction settleDB0 "2025-10"
    "t0" settleOrder0 "c1" "ref1" "success" 1655)

/-- Evaluation fact shared by the settlement witnesses: the concrete
settlement succeeds and commits `settleDB1`. -/
theorem settleDB1_ok :
    createOrderAndLogTransaction settleDB0 "2025-10" "t0" settleOrder0 "c1"
      "ref1" "success" 1655 = .ok settleDB1 := by
  norm_num [createOrderAndLogTransaction, settleDB0, settleOrder0, settleDB1,
    calculateServiceCharge, getCommissionRate, getDoc, setDoc, getMonth,
    setMonth, arrayUnion, List.find?]
  simp [commitResult]

/-- Witness for C3: the concrete settlement succeeds and replaying it raises
`AlreadyExists` and leaves the state unchanged. -/
theorem createOrder_idempotency_witness :
    createOrderAndLogTransaction settleDB1 "2025-11" "t1" settleOrder0 "c1"
      "ref1" "success" 1655 =
      .error (.alreadyExists "Order already exists.") ∧
    commitResult settleDB1 (createOrderAndLogTransaction settleDB1 "2025-11"
      "t1" settleOrder0 "c1" "ref1" "success" 1655) = settleDB1 :=
  createOrder_idempotency settleDB0 settleDB1 "2025-10" "t0" "2025-11" "t1"
    settleOrder0 "c1" "ref1" "success" 1655 settleDB1_ok

/-- Witness for C4 at the concrete settlement: pending and balance grow by
1500 - 0 and the 2025-10 bucket by 1500. -/
theorem createOrder_settlement_delta_witness :
    ∃ u', getDoc settleDB1.users settleOrder0.vendorId = some u' ∧
      u'.wallet.pendingBalance =
        (0 : ℚ) + (settleOrder0.subtotal + settleOrder0.deliveryFee - 0) ∧
      u'.wallet.balance =
        (0 : ℚ) + (settleOrder0.subtotal + settleOrder0.deliveryFee - 0) ∧
      getMonth u'.monthlySales "2025-10" =
        (0 : ℚ) + (settleOrder0.subtotal + settleOrder0.deliveryFee) :=
  createOrder_settlement_delta settleDB0 settleDB1 "2025-10" "t0" settleOrder0
    "c1" "ref1" "success" 1655 {}
    (by norm_num [settleDB0, settleOrder0, getDoc, List.find?])
    (by norm_num) settleDB1_ok

/-- C5: for an order with a stored delivery code: an expired code (stored
expiry strictly before the clock) fails `DeadlineExceeded` even when the
entered code matches exactly; confirming with the correct, unexpired code
moves exactly `order.vendorEarnings` from the vendor's pendingBalance to
eligibleBalance (given the pending-balance guard admits it), and the
confirmation is not repeatable: a second attempt (while the code is still
unexpired) fails `AlreadyConfirmed` (`already-exists`). -/
theorem confirmOrder_release_spec (dbS : DB) (now now2 : ℚ)
    (iso iso2 : String) (orderId vendorId c : String) (o : OrderData)
    (v : UserDoc)
    (ho : getDoc dbS.orders orderId = some o)
    (hv : getDoc dbS.users vendorId = some v)
    (hoid : orderId ≠ "") (hvid : vendorId ≠ "") (hc : c ≠ "")
    (hcode : o.deliveryCode = some c) :
    (∀ e, o.deliveryCodeExpiresAt = some e → e < now →
      confirmOrderWithOTP dbS now iso orderId vendorId c =
        .error (.deadlineExceeded "OTP has expired.")) ∧
    ((∀ e, o.deliveryCodeExpiresAt = some e → now ≤ e) →
      o.deliveryConfirmed ≠ some true →
      o.vendorEarnings ≤ v.wallet.pendingBalance →
      ∃ dbS' v', confirmOrderWithOTP dbS now iso orderId vendorId c =
          .ok dbS' ∧
        getDoc dbS'.users vendorId = some v' ∧
        v'.wallet.pendingBalance =
          v.wallet.pendingBalance - o.vendorEarnings ∧
        v'.wallet.eligibleBalance =
          v.wallet.eligibleBalance + o.vendorEarnings ∧
        ((∀ e, o.deliveryCodeExpiresAt = some e → now2 ≤ e) →
          confirmOrderWithOTP dbS' now2 iso2 orderId vendorId c =
            .error (.alreadyExists "Delivery already confirmed."))) := by
  constructor
  · intro e hE hlt
    simp [confirmOrderWithOTP, ho, hv, hoid, hvid, hc, hE, hlt]
  · intro hnexp hconf hbal
    have hnotlt : ¬(v.wallet.pendingBalance < o.vendorEarnings) :=
      not_lt.mpr hbal
    have heval : confirmOrderWithOTP dbS now iso orderId vendorId c =
        .ok { dbS with
          orders := setDoc dbS.orders orderId { o with
            deliveryConfirmed := some true
            orderStatus := "completed"
            reviewed := some false
            timeline := arrayUnion o.timeline
              { status := "Order completed"
                timestamp := iso
                actor := "vendor" } }
          users := setDoc dbS.users vendorId { v with
            wallet := { v.wallet with
              pendingBalance := v.wallet.pendingBalance - o.vendorEarnings
              eligibleBalance :=
                v.wallet.eligibleBalance + o.vendorEarnings } } } := by
      cases hE : o.deliveryCodeExpiresAt with
      | none =>
        simp [confirmOrderWithOTP, ho, hv, hoid, hvid, hc, hE, hcode, hconf,
          hnotlt]
      | some e =>
        have hge : ¬(e < now) := not_lt.mpr (hnexp e hE)
        simp [confirmOrderWithOTP, ho, hv, hoid, hvid, hc, hE, hcode, hconf,
          hnotlt, hge]
    refine ⟨_, _, heval, getDoc_setDoc_self _ _ _, rfl, rfl, ?_⟩
    intro hnexp2
    cases hE : o.deliveryCodeExpiresAt with
    | none =>
      simp [confirmOrderWithOTP, getDoc_setDoc_self, hoid, hvid, hc, hE]
    | some e =>
      have hge : ¬(e < now2) := not_lt.mpr (hnexp2 e hE)
      simp [confirmOrderWithOTP, getDoc_setDoc_self, hoid, hvid, hc, hE, hge]

/-- Concrete order for the delivery-release witness: stored code 1234,
expiry at clock 1000, earnings 5500, not yet confirmed. -/
def otpOrder0 : OrderData :=
  { orderId := "o1"
    userId := "c1"
    vendorId := "v1"
    subtotal := 5000
    deliveryFee := 500
    serviceFee := 375
    vendorCommission := 0
    vendorEarnings := 5500
    totalAmountPaid := 5875
    deliveryCode := some "1234"
    deliveryCodeExpiresAt := some 1000
    deliveryConfirmed := some false }

/-- Concrete vendor for the delivery-release witness. -/
def otpUser0 : UserDoc :=
  { wallet := { balance := 5500, pendingBalance := 5500,
                eligibleBalance := 100 } }

/-- Concrete pre-state for the delivery-release witness. -/
def otpDB0 : DB :=
  { orders := [("o1", otpOrder0)]
    users := [("v1", otpUser0)] }

/-- Witness for C5: at clock 2000 (past expiry 1000) the matching code fails
`DeadlineExceeded`; at clock 500 it succeeds, moves 5500 from pending to
eligible, and the repeat at clock 600 fails `AlreadyConfirmed`. -/
theorem confirmOrder_release_spec_witness :
    confirmOrderWithOTP otpDB0 2000 "t" "o1" "v1" "1234" =
      .error (.deadlineExceeded "OTP has expired.") ∧
    (∃ dbS' v', confirmOrderWithOTP otpDB0 500 "t1" "o1" "v1" "1234" =
        .ok dbS' ∧
      getDoc dbS'.users "v1" = some v' ∧
      v'.wallet.pendingBalance =
        otpUser0.wallet.pendingBalance - otpOrder0.vendorEarnings ∧
      v'.wallet.eligibleBalance =
        otpUser0.wallet.eligibleBalance + otpOrder0.vendorEarnings ∧
      ((∀ e, otpOrder0.deliveryCodeExpiresAt = some e → (600 : ℚ) ≤ e) →
        confirmOrderWithOTP dbS' 600 "t2" "o1" "v1" "1234" =
          .error (.alreadyExists "Delivery already confirmed."))) := by
  have ho : getDoc otpDB0.orders "o1" = some otpOrder0 := by
    simp [otpDB0, getDoc, List.find?]
  have hv : getDoc otpDB0.users "v1" = some otpUser0 := by
    simp [otpDB0, getDoc, List.find?]
  have base := confirmOrder_release_spec otpDB0 500 600 "t1" "t2" "o1" "v1"
    "1234" otpOrder0 otpUser0 ho hv (by decide) (by decide) (by decide)
    (by simp [otpOrder0])
  have expired := confirmOrder_release_spec otpDB0 2000 600 "t" "t2" "o1" "v1"
    "1234" otpOrder0 otpUser0 ho hv (by decide) (by decide) (by decide)
    (by simp [otpOrder0])
  refine ⟨expired.1 1000 (by simp [otpOrder0]) (by norm_num), ?_⟩
  obtain ⟨dbS', v', hok, hget, hpend, helig, hrepeat⟩ := base.2
    (by
      intro e he
      simp [otpOrder0] at he
      subst he
      norm_num)
    (by simp [otpOrder0])
    (by norm_num [otpOrder0, otpUser0])
  exact ⟨dbS', v', hok, hget, hpend, helig, fun _ => hrepeat
    (by
      intro e he
      simp [otpOrder0] at he
      subst he
      norm_num)⟩

/-- Inversion of a successful delivery confirmation: the order and vendor
existed, the pending-balance guard held, and the committed state moves exactly
the order's `vendorEarnings` from pending to eligible, leaving `balance`
untouched. -/
theorem confirmOrder_ok_inv {dbS dbS' : DB} {now : ℚ} {iso oid vid otp : String}
    (h : confirmOrderWithOTP dbS now iso oid vid otp = .ok dbS') :
    ∃ o v, getDoc dbS.orders oid = some o ∧ getDoc dbS.users vid = some v ∧
      o.vendorEarnings ≤ v.wallet.pendingBalance ∧
      ∃ v', getDoc dbS'.users vid = some v' ∧
        v'.wallet.pendingBalance =
          v.wallet.pendingBalance - o.vendorEarnings ∧
        v'.wallet.eligibleBalance =
          v.wallet.eligibleBalance + o.vendorEarnings ∧
        v'.wallet.balance = v.wallet.balance := by
  simp only [confirmOrderWithOTP] at h
  split at h
  · exact Except.noConfusion h
  split at h
  · exact Except.noConfusion h
  rename_i o ho
  split at h
  · exact Except.noConfusion h
  rename_i v hv
  split at h
  · exact Except.noConfusion h
  split at h
  · exact Except.noConfusion h
  split at h
  · exact Except.noConfusion h
  split at h
  · exact Except.noConfusion h
  rename_i hguard
  injection h with h
  subst h
  exact ⟨o, v, ho, hv, not_lt.mp hguard, _, getDoc_setDoc_self _ _ _,
    rfl, rfl, rfl⟩

/-- Inversion of a successful withdrawal request: the vendor existed, the
eligible-balance guard held, and the committed state debits exactly `amount`
from `eligibleBalance`, touching neither `pendingBalance` nor `balance`. -/
theorem requestWithdrawal_ok_inv {dbS dbS' : DB} {reqId now vendorId : String}
    {amount : ℚ} {bn bc an acn : String}
    (h : requestVendorWithdrawal dbS reqId now vendorId amount bn bc an acn =
      .ok dbS') :
    ∃ v, getDoc dbS.users vendorId = some v ∧
      amount ≤ v.wallet.eligibleBalance ∧
      ∃ v', getDoc dbS'.users vendorId = some v' ∧
        v'.wallet.eligibleBalance = v.wallet.eligibleBalance - amount ∧
        v'.wallet.pendingBalance = v.wallet.pendingBalance ∧
        v'.wallet.balance = v.wallet.balance := by
  simp only [requestVendorWithdrawal] at h
  split at h
  · exact Except.noConfusion h
  split at h
  · exact Except.noConfusion h
  rename_i v hv
  split at h
  · exact Except.noConfusion h
  rename_i hguard
  injection h with h
  subst h
  exact ⟨v, hv, not_lt.mp hguard, _, getDoc_setDoc_self _ _ _, rfl, rfl, rfl⟩

/-- Inversion of a successful withdrawal rejection: the request and vendor
existed and the committed state restores exactly the reserved amount to
`eligibleBalance`, touching neither `pendingBalance` nor `balance`. -/
theorem rejectWithdrawal_ok_inv {dbS dbS' : DB} {now wid reason : String}
    (h : rejectVendorWithdrawal dbS now wid reason = .ok dbS') :
    ∃ w v, getDoc dbS.withdrawalRequests wid = some w ∧
      w.status = "pending" ∧
      getDoc dbS.users w.vendorId = some v ∧
      ∃ v', getDoc dbS'.users w.vendorId = some v' ∧
        v'.wallet.eligibleBalance =
          v.wallet.eligibleBalance + w.amount ∧
        v'.wallet.pendingBalance = v.wallet.pendingBalance ∧
        v'.wallet.balance = v.wallet.balance := by
  simp only [rejectVendorWithdrawal] at h
  split at h
  · exact Except.noConfusion h
  split at h
  · exact Except.noConfusion h
  rename_i w hw
  split at h
  · exact Except.noConfusion h
  rename_i hstatus
  split at h
  · exact Except.noConfusion h
  rename_i v hv
  injection h with h
  subst h
  exact ⟨w, v, hw, not_ne_iff.mp hstatus, hv, _, getDoc_setDoc_self _ _ _,
    rfl, rfl, rfl⟩

/-- Inversion of a successful withdrawal approval: the pending request and
vendor existed, and the committed state debits exactly the request amount from
`balance`, touching neither `pendingBalance` nor `eligibleBalance`. -/
theorem approveWithdrawal_ok_inv {dbS dbS' : DB} {now wid : String}
    {gw : Gateway}
    (h : approveVendorWithdrawal dbS now gw wid = .ok dbS') :
    ∃ w v, getDoc dbS.withdrawalRequests wid = some w ∧
      w.status = "pending" ∧
      getDoc dbS.users w.vendorId = some v ∧
      ∃ v', getDoc dbS'.users w.vendorId = some v' ∧
        v'.wallet.balance = v.wallet.balance - w.amount ∧
        v'.wallet.pendingBalance = v.wallet.pendingBalance ∧
        v'.wallet.eligibleBalance = v.wallet.eligibleBalance := by
  simp only [approveVendorWithdrawal] at h
  split at h
  · exact Except.noConfusion h
  split at h
  · exact Except.noConfusion h
  rename_i w hw
  split at h
  · exact Except.noConfusion h
  rename_i hstatus
  split at h
  · exact Except.noConfusion h
  rename_i v hv
  split at h
  · exact Except.noConfusion h
  split at h
  · exact Except.noConfusion h
  injection h with h
  subst h
  exact ⟨w, v, hw, not_ne_iff.mp hstatus, hv, _, getDoc_setDoc_self _ _ _,
    rfl, rfl, rfl⟩

/-- Inversion of a successful refund approval: the pending refund record and
the vendor existed, and the committed state debits exactly the snapshot
`vendorEarnings` from the vendor's `balance` and `pendingBalance` (not
`eligibleBalance`) and floors the month's sales bucket at 0 after removing
subtotal+deliveryFee. -/
theorem approveRefund_ok_inv {dbS dbS' : DB} {monthKey nowIso : String}
    {gw : Gateway} {orderId userId : String} {amount : ℚ}
    (h : approveRefundRequest dbS monthKey nowIso gw orderId userId amount =
      .ok dbS') :
    ∃ r v, getDoc dbS.refundRequests orderId = some r ∧
      r.status = "pending" ∧
      getDoc dbS.users r.vendorId = some v ∧
      ∃ v', getDoc dbS'.users r.vendorId = some v' ∧
        v'.wallet.balance = v.wallet.balance - r.vendorEarnings ∧
        v'.wallet.pendingBalance =
          v.wallet.pendingBalance - r.vendorEarnings ∧
        v'.wallet.eligibleBalance = v.wallet.eligibleBalance ∧
        getMonth v'.monthlySales monthKey =
          max (getMonth v.monthlySales monthKey -
            (r.subtotal + r.deliveryFee)) 0 := by
  simp only [approveRefundRequest] at h
  split at h
  · exact Except.noConfusion h
  split at h
  · exact Except.noConfusion h
  rename_i r hr
  split at h
  · exact Except.noConfusion h
  rename_i hstatus
  split at h
  · exact Except.noConfusion h
  split at h
  · exact Except.noConfusion h
  split at h
  · exact Except.noConfusion h
  split at h
  · exact Except.noConfusion h
  split at h
  · exact Except.noConfusion h
  rename_i u hu
  split at h
  · exact Except.noConfusion h
  rename_i v hv
  injection h with h
  subst h
  exact ⟨r, v, hr, not_ne_iff.mp hstatus, hv, _, getDoc_setDoc_self _ _ _,
    rfl, rfl, rfl, getMonth_setMonth_self _ _ _⟩

/-- Gateway oracle that always succeeds, for concrete runs. -/
def gwOk : Gateway :=
  { createRecipient := fun _ => some "RCP"
    transfer := fun _ => some "TRF" }

/-- Gateway oracle whose recipient-creation call fails, for concrete runs. -/
def gwFail : Gateway :=
  { createRecipient := fun _ => none
    transfer := fun _ => some "TRF" }

/-- Vendor with all balances zero, for the refund counterexample. -/
def c2Vendor : UserDoc := {}

/-- Customer with complete payout bank details. -/
def c2Customer : UserDoc :=
  { paymentInfo := some
      { accountNumber := "0123456789", accountName := "A B", bankCode := "058" } }

/-- Pending refund request snapshotting vendorEarnings 5500, subtotal 5000,
deliveryFee 500. -/
def c2Refund : RefundRequest :=
  { orderId := "o1"
    userId := "u1"
    vendorId := "v1"
    amount := 5500
    subtotal := 5000
    deliveryFee := 500
    serviceFee := 375
    vendorEarnings := 5500
    totalPaid := 5875
    reason := "r"
    status := "pending" }

/-- Pre-state for the refund counterexample: vendor `v1` with zero balances,
customer `u1` with bank details, pending refund for order `o1`. -/
def c2DB : DB :=
  { users := [("u1", c2Customer), ("v1", c2Vendor)]
    refundRequests := [("o1", c2Refund)] }

/-- Post-state of the concrete refund approval. -/
def c2DB1 : DB :=
  commitResult c2DB (approveRefundRequest c2DB "2025-10" "t" gwOk "o1" "u1"
    5500)

/-- Evaluation fact: the concrete refund approval succeeds and commits
`c2DB1`. -/
theorem c2DB1_ok :
    approveRefundRequest c2DB "2025-10" "t" gwOk "o1" "u1" 5500 =
      .ok c2DB1 := by
  norm_num [approveRefundRequest, c2DB, c2DB1, c2Customer, c2Vendor, c2Refund,
    gwOk, calculateAmount, getDoc, setDoc, getMonth, setMonth, List.find?]
  simp [commitResult]

theorem some_eq_some_unique {α : Type} {x : Option α} {a b : α}
    (ha : x = some a) (hb : x = some b) : a = b :=
  Option.some.inj (ha.symm.trans hb)

/-- C2 counterexample: in the concrete state `c2DB` the vendor's
pendingBalance and eligibleBalance are 0 (non-negative), the refund approval
completes successfully, and afterwards the vendor's pendingBalance is
strictly negative — `approveRefundRequest` subtracts the snapshot
`vendorEarnings` from `pendingBalance` with no guard or floor. -/
theorem refund_negative_pending_cex :
    0 ≤ c2Vendor.wallet.pendingBalance ∧
    0 ≤ c2Vendor.wallet.eligibleBalance ∧
    getDoc c2DB.users "v1" = some c2Vendor ∧
    approveRefundRequest c2DB "2025-10" "t" gwOk "o1" "u1" 5500 =
      .ok c2DB1 ∧
    ∃ v', getDoc c2DB1.users "v1" = some v' ∧
      v'.wallet.pendingBalance < 0 := by
  refine ⟨by norm_num [c2Vendor], by norm_num [c2Vendor],
    by simp [c2DB, getDoc, List.find?], c2DB1_ok, ?_⟩
  obtain ⟨r, v, hr, -, hv, v', hv', -, hpend, -, -⟩ :=
    approveRefund_ok_inv c2DB1_ok
  have hr0 : getDoc c2DB.refundRequests "o1" = some c2Refund := by
    simp [c2DB, getDoc, List.find?]
  obtain rfl := some_eq_some_unique hr hr0
  have hv0 : getDoc c2DB.users c2Refund.vendorId = some c2Vendor := by
    simp [c2DB, c2Refund, getDoc, List.find?]
  obtain rfl := some_eq_some_unique hv hv0
  refine ⟨v', hv', ?_⟩
  rw [hpend]
  norm_num [c2Vendor, c2Refund]

/-- C2 amended: order settlement (for non-negative order revenue), delivery
release (for a non-negative stored vendorEarnings), withdrawal request,
withdrawal rejection (for a non-negative stored amount) and withdrawal
approval all preserve non-negativity of the vendor's pendingBalance and
eligibleBalance; refund approval preserves non-negativity of eligibleBalance
only — it subtracts the snapshot vendorEarnings from pendingBalance without a
guard and can leave pendingBalance negative. -/
theorem wallet_nonnegativity_amended :
    (∀ (dbS dbS' : DB) (mk now : String) (o : OrderData)
        (uid ref st : String) (tp : ℚ) (u : UserDoc),
      createOrderAndLogTransaction dbS mk now o uid ref st tp = .ok dbS' →
      getDoc dbS.users o.vendorId = some u →
      0 ≤ u.wallet.pendingBalance → 0 ≤ u.wallet.eligibleBalance →
      0 ≤ o.subtotal + o.deliveryFee →
      ∃ u', getDoc dbS'.users o.vendorId = some u' ∧
        0 ≤ u'.wallet.pendingBalance ∧ 0 ≤ u'.wallet.eligibleBalance) ∧
    (∀ (dbS dbS' : DB) (now : ℚ) (iso oid vid otp : String) (o : OrderData)
        (v : UserDoc),
      confirmOrderWithOTP dbS now iso oid vid otp = .ok dbS' →
      getDoc dbS.orders oid = some o →
      getDoc dbS.users vid = some v →
      0 ≤ v.wallet.pendingBalance → 0 ≤ v.wallet.eligibleBalance →
      0 ≤ o.vendorEarnings →
      ∃ v', getDoc dbS'.users vid = some v' ∧
        0 ≤ v'.wallet.pendingBalance ∧ 0 ≤ v'.wallet.eligibleBalance) ∧
    (∀ (dbS dbS' : DB) (reqId now vendorId : String) (amount : ℚ)
        (bn bc an acn : String) (v : UserDoc),
      requestVendorWithdrawal dbS reqId now vendorId amount bn bc an acn =
        .ok dbS' →
      getDoc dbS.users vendorId = some v →
      0 ≤ v.wallet.pendingBalance → 0 ≤ v.wallet.eligibleBalance →
      ∃ v', getDoc dbS'.users vendorId = some v' ∧
        0 ≤ v'.wallet.pendingBalance ∧ 0 ≤ v'.wallet.eligibleBalance) ∧
    (∀ (dbS dbS' : DB) (now wid reason : String) (w : WithdrawalRequest)
        (v : UserDoc),
      rejectVendorWithdrawal dbS now wid reason = .ok dbS' →
      getDoc dbS.withdrawalRequests wid = some w →
      getDoc dbS.users w.vendorId = some v →
      0 ≤ v.wallet.pendingBalance → 0 ≤ v.wallet.eligibleBalance →
      0 ≤ w.amount →
      ∃ v', getDoc dbS'.users w.vendorId = some v' ∧
        0 ≤ v'.wallet.pendingBalance ∧ 0 ≤ v'.wallet.eligibleBalance) ∧
    (∀ (dbS dbS' : DB) (now wid : String) (gw : Gateway)
        (w : WithdrawalRequest) (v : UserDoc),
      approveVendorWithdrawal dbS now gw wid = .ok dbS' →
      getDoc dbS.withdrawalRequests wid = some w →
      getDoc dbS.users w.vendorId = some v →
      0 ≤ v.wallet.pendingBalance → 0 ≤ v.wallet.eligibleBalance →
      ∃ v', getDoc dbS'.users w.vendorId = some v' ∧
        0 ≤ v'.wallet.pendingBalance ∧ 0 ≤ v'.wallet.eligibleBalance) ∧
    (∀ (dbS dbS' : DB) (mk now : String) (gw : Gateway) (oid uid : String)
        (amount : ℚ) (r : RefundRequest) (v : UserDoc),
      approveRefundRequest dbS mk now gw oid uid amount = .ok dbS' →
      getDoc dbS.refundRequests oid = some r →
      getDoc dbS.users r.vendorId = some v →
      0 ≤ v.wallet.eligibleBalance →
      ∃ v', getDoc dbS'.users r.vendorId = some v' ∧
        0 ≤ v'.wallet.eligibleBalance) := by
  refine ⟨?_, ?_, ?_, ?_, ?_, ?_⟩
  · intro dbS dbS' mk now o uid ref st tp u h hu hp he hrev
    obtain ⟨-, -, -, -, u0, u', so, hu0, hu', -, hb, hpd, helig, -⟩ :=
      createOrder_ok_inv h
    obtain rfl := some_eq_some_unique hu0 hu
    refine ⟨u', hu', ?_, ?_⟩
    · rw [hpd]; linarith
    · rw [helig]; exact he
  · intro dbS dbS' now iso oid vid otp o v h ho hv hp he hE
    obtain ⟨o0, v0, ho0, hv0, hguard, v', hv', hpd, helig, -⟩ :=
      confirmOrder_ok_inv h
    obtain rfl := some_eq_some_unique ho0 ho
    obtain rfl := some_eq_some_unique hv0 hv
    refine ⟨v', hv', ?_, ?_⟩
    · rw [hpd]; linarith
    · rw [helig]; linarith
  · intro dbS dbS' reqId now vendorId amount bn bc an acn v h hv hp he
    obtain ⟨v0, hv0, hguard, v', hv', helig, hpd, -⟩ :=
      requestWithdrawal_ok_inv h
    obtain rfl := some_eq_some_unique hv0 hv
    refine ⟨v', hv', ?_, ?_⟩
    · rw [hpd]; exact hp
    · rw [helig]; linarith
  · intro dbS dbS' now wid reason w v h hw hv hp he hamt
    obtain ⟨w0, v0, hw0, -, hv0, v', hv', helig, hpd, -⟩ :=
      rejectWithdrawal_ok_inv h
    obtain rfl := some_eq_some_unique hw0 hw
    obtain rfl := some_eq_some_unique hv0 hv
    refine ⟨v', hv', ?_, ?_⟩
    · rw [hpd]; exact hp
    · rw [helig]; linarith
  · intro dbS dbS' now wid gw w v h hw hv hp he
    obtain ⟨w0, v0, hw0, -, hv0, v', hv', -, hpd, helig⟩ :=
      approveWithdrawal_ok_inv h
    obtain rfl := some_eq_some_unique hw0 hw
    obtain rfl := some_eq_some_unique hv0 hv
    refine ⟨v', hv', ?_, ?_⟩
    · rw [hpd]; exact hp
    · rw [helig]; exact he
  · intro dbS dbS' mk now gw oid uid amount r v h hr hv he
    obtain ⟨r0, v0, hr0, -, hv0, v', hv', -, -, helig, -⟩ :=
      approveRefund_ok_inv h
    obtain rfl := some_eq_some_unique hr0 hr
    obtain rfl := some_eq_some_unique hv0 hv
    exact ⟨v', hv', by rw [helig]; exact he⟩

/-- Post-state of the concrete delivery confirmation at clock 500. -/
def otpDB1 : DB :=
  commitResult otpDB0 (confirmOrderWithOTP otpDB0 500 "t1" "o1" "v1" "1234")

/-- Evaluation fact: the concrete delivery confirmation succeeds. -/
theorem otpDB1_ok :
    confirmOrderWithOTP otpDB0 500 "t1" "o1" "v1" "1234" = .ok otpDB1 := by
  norm_num [confirmOrderWithOTP, otpDB0, otpDB1, otpOrder0, otpUser0,
    getDoc, setDoc, arrayUnion, List.find?]
  simp [commitResult]

/-- Vendor state for the concrete withdrawal request run. -/
def wdDB0 : DB :=
  { users := [("v1", { wallet := { balance := 3000, eligibleBalance := 5000 } })] }

/-- Post-state of the concrete withdrawal request of 2000. -/
def wdDB1 : DB :=
  commitResult wdDB0 (requestVendorWithdrawal wdDB0 "w1" "t" "v1" 2000
    "Bank" "058" "0123" "Name")

/-- Evaluation fact: the concrete withdrawal request succeeds. -/
theorem wdDB1_ok :
    requestVendorWithdrawal wdDB0 "w1" "t" "v1" 2000 "Bank" "058" "0123"
      "Name" = .ok wdDB1 := by
  norm_num [requestVendorWithdrawal, wdDB0, wdDB1, getDoc, setDoc,
    List.find?]
  simp [commitResult]

/-- A pending withdrawal request document, funds already reserved. -/
def wdReq : WithdrawalRequest :=
  { vendorId := "v1"
    amount := 2000
    bankName := "Bank"
    bankCode := "058"
    accountNumber := "0123"
    accountName := "Name"
    status := "pending" }

/-- State holding vendor `v1` (reservation already taken out of eligible)
and the pending withdrawal `w1`. -/
def wdPend : DB :=
  { users := [("v1", { wallet := { balance := 3000 } })]
    withdrawalRequests := [("w1", wdReq)] }

/-- Post-state of the concrete withdrawal rejection. -/
def wdPendR : DB :=
  commitResult wdPend (rejectVendorWithdrawal wdPend "t2" "w1" "because")

/-- Evaluation fact: the concrete withdrawal rejection succeeds. -/
theorem wdPendR_ok :
    rejectVendorWithdrawal wdPend "t2" "w1" "because" = .ok wdPendR := by
  norm_num [rejectVendorWithdrawal, wdPend, wdPendR, wdReq, getDoc, setDoc,
    List.find?]
  simp [commitResult]

/-- Post-state of the concrete withdrawal approval with a succeeding
gateway. -/
def wdPendA : DB :=
  commitResult wdPend (approveVendorWithdrawal wdPend "t3" gwOk "w1")

/-- Evaluation fact: the concrete withdrawal approval succeeds. -/
theorem wdPendA_ok :
    approveVendorWithdrawal wdPend "t3" gwOk "w1" = .ok wdPendA := by
  norm_num [approveVendorWithdrawal, wdPend, wdPendA, wdReq, gwOk,
    calculateAmount, getDoc, setDoc, List.find?]
  simp [commitResult]

/-- Witness for the amended C2: each conjunct applied to its concrete run. -/
theorem wallet_nonnegativity_amended_witness :
    (∃ u', getDoc settleDB1.users settleOrder0.vendorId = some u' ∧
      0 ≤ u'.wallet.pendingBalance ∧ 0 ≤ u'.wallet.eligibleBalance) ∧
    (∃ v', getDoc otpDB1.users "v1" = some v' ∧
      0 ≤ v'.wallet.pendingBalance ∧ 0 ≤ v'.wallet.eligibleBalance) ∧
    (∃ v', getDoc wdDB1.users "v1" = some v' ∧
      0 ≤ v'.wallet.pendingBalance ∧ 0 ≤ v'.wallet.eligibleBalance) ∧
    (∃ v', getDoc wdPendR.users wdReq.vendorId = some v' ∧
      0 ≤ v'.wallet.pendingBalance ∧ 0 ≤ v'.wallet.eligibleBalance) ∧
    (∃ v', getDoc wdPendA.users wdReq.vendorId = some v' ∧
      0 ≤ v'.wallet.pendingBalance ∧ 0 ≤ v'.wallet.eligibleBalance) ∧
    (∃ v', getDoc c2DB1.users c2Refund.vendorId = some v' ∧
      0 ≤ v'.wallet.eligibleBalance) := by
  refine ⟨?_, ?_, ?_, ?_, ?_, ?_⟩
  · exact wallet_nonnegativity_amended.1 settleDB0 settleDB1 "2025-10" "t0"
      settleOrder0 "c1" "ref1" "success" 1655 {} settleDB1_ok
      (by simp [settleDB0, settleOrder0, getDoc, List.find?])
      (by norm_num) (by norm_num) (by norm_num [settleOrder0])
  · exact wallet_nonnegativity_amended.2.1 otpDB0 otpDB1 500 "t1" "o1" "v1"
      "1234" otpOrder0 otpUser0 otpDB1_ok
      (by simp [otpDB0, getDoc, List.find?])
      (by simp [otpDB0, getDoc, List.find?])
      (by norm_num [otpUser0]) (by norm_num [otpUser0])
      (by norm_num [otpOrder0])
  · exact wallet_nonnegativity_amended.2.2.1 wdDB0 wdDB1 "w1" "t" "v1" 2000
      "Bank" "058" "0123" "Name"
      { wallet := { balance := 3000, eligibleBalance := 5000 } } wdDB1_ok
      (by simp [wdDB0, getDoc, List.find?])
      (by norm_num) (by norm_num)
  · exact wallet_nonnegativity_amended.2.2.2.1 wdPend wdPendR "t2" "w1"
      "because" wdReq { wallet := { balance := 3000 } } wdPendR_ok
      (by simp [wdPend, getDoc, List.find?])
      (by simp [wdPend, wdReq, getDoc, List.find?])
      (by norm_num) (by norm_num) (by norm_num [wdReq])
  · exact wallet_nonnegativity_amended.2.2.2.2.1 wdPend wdPendA "t3" "w1"
      gwOk wdReq { wallet := { balance := 3000 } } wdPendA_ok
      (by simp [wdPend, getDoc, List.find?])
      (by simp [wdPend, wdReq, getDoc, List.find?])
      (by norm_num) (by norm_num)
  · exact wallet_nonnegativity_amended.2.2.2.2.2 c2DB c2DB1 "2025-10" "t"
      gwOk "o1" "u1" 5500 c2Refund c2Vendor c2DB1_ok
      (by simp [c2DB, getDoc, List.find?])
      (by simp [c2DB, c2Refund, getDoc, List.find?])
      (by norm_num [c2Vendor])

/-- C7: for a pending withdrawal request, if either payout-gateway call
during approval fails (recipient creation, or the transfer that follows a
successful recipient creation), the whole approval fails with `PayoutFailed`
and the aborted transaction commits nothing — the withdrawal record and the
vendor wallet are unchanged — and since the state is unchanged the
`eligibleBalance` reserved at request time stays deducted (this path never
refunds it; moreover no successful approval ever changes any vendor's
`eligibleBalance`). -/
theorem approveWithdrawal_gateway_failure (dbS : DB) (now : String)
    (gw : Gateway) (withdrawalId : String) (w : WithdrawalRequest)
    (hw : getDoc dbS.withdrawalRequests withdrawalId = some w)
    (hwid : withdrawalId ≠ "") (hpend : w.status = "pending")
    (v : UserDoc) (hv : getDoc dbS.users w.vendorId = some v)
    (hfail : gw.createRecipient
        { type := "nuban", name := w.accountName,
          account_number := w.accountNumber, bank_code := w.bankCode,
          currency := "NGN" } = none ∨
      ∃ rc, gw.createRecipient
          { type := "nuban", name := w.accountName,
            account_number := w.accountNumber, bank_code := w.bankCode,
            currency := "NGN" } = some rc ∧
        gw.transfer
          { source := "balance", amount := calculateAmount w.amount,
            recipient := rc,
            reason := "Vendor withdrawal for ₦" ++ toString w.amount } =
          none) :
    approveVendorWithdrawal dbS now gw withdrawalId =
      .error (.payoutFailed "Approval failed.") ∧
    commitResult dbS (approveVendorWithdrawal dbS now gw withdrawalId) =
      dbS ∧
    (∀ (gw2 : Gateway) (dbS2 : DB),
      approveVendorWithdrawal dbS now gw2 withdrawalId = .ok dbS2 →
      ∃ v2, getDoc dbS2.users w.vendorId = some v2 ∧
        v2.wallet.eligibleBalance = v.wallet.eligibleBalance) := by
  have herr : approveVendorWithdrawal dbS now gw withdrawalId =
      .error (.payoutFailed "Approval failed.") := by
    rcases hfail with hnone | ⟨rc, hrc, htr⟩
    · simp [approveVendorWithdrawal, hw, hwid, hpend, hv, hnone]
    · simp [approveVendorWithdrawal, hw, hwid, hpend, hv, hrc, htr]
  refine ⟨herr, by rw [herr]; rfl, ?_⟩
  intro gw2 dbS2 hok
  obtain ⟨w0, v0, hw0, -, hv0, v2, hv2, -, -, helig⟩ :=
    approveWithdrawal_ok_inv hok
  obtain rfl := some_eq_some_unique hw0 hw
  obtain rfl := some_eq_some_unique hv0 hv
  exact ⟨v2, hv2, helig⟩

/-- Witness for C7: the concrete pending withdrawal `w1` in `wdPend`,
approved through the failing gateway `gwFail`. -/
theorem approveWithdrawal_gateway_failure_witness :
    approveVendorWithdrawal wdPend "t3" gwFail "w1" =
      .error (.payoutFailed "Approval failed.") ∧
    commitResult wdPend (approveVendorWithdrawal wdPend "t3" gwFail "w1") =
      wdPend ∧
    (∀ (gw2 : Gateway) (dbS2 : DB),
      approveVendorWithdrawal wdPend "t3" gw2 "w1" = .ok dbS2 →
      ∃ v2, getDoc dbS2.users wdReq.vendorId = some v2 ∧
        v2.wallet.eligibleBalance =
          ({ wallet := { balance := 3000 } } : UserDoc).wallet.eligibleBalance) :=
  approveWithdrawal_gateway_failure wdPend "t3" gwFail "w1" wdReq
    (by simp [wdPend, getDoc, List.find?]) (by decide) (by simp [wdReq])
    { wallet := { balance := 3000 } }
    (by simp [wdPend, wdReq, getDoc, List.find?])
    (Or.inl (by simp [gwFail]))

/-- C8: approving a pending refund whose snapshot records vendorEarnings E,
subtotal S and deliveryFee D decrements the vendor's balance and
pendingBalance by exactly E each (not eligibleBalance), and replaces the
vendor's current-month sales bucket by its old value minus S + D, floored at
0. -/
theorem approveRefund_delta (dbS dbS' : DB) (monthKey nowIso : String)
    (gw : Gateway) (orderId userId : String) (amount : ℚ)
    (r : RefundRequest) (v : UserDoc)
    (hr : getDoc dbS.refundRequests orderId = some r)
    (hrp : r.status = "pending")
    (hv : getDoc dbS.users r.vendorId = some v)
    (h : approveRefundRequest dbS monthKey nowIso gw orderId userId amount =
      .ok dbS') :
    ∃ v', getDoc dbS'.users r.vendorId = some v' ∧
      v'.wallet.balance = v.wallet.balance - r.vendorEarnings ∧
      v'.wallet.pendingBalance =
        v.wallet.pendingBalance - r.vendorEarnings ∧
      v'.wallet.eligibleBalance = v.wallet.eligibleBalance ∧
      getMonth v'.monthlySales monthKey =
        max (getMonth v.monthlySales monthKey -
          (r.subtotal + r.deliveryFee)) 0 := by
  obtain ⟨r0, v0, hr0, -, hv0, v', hv', hb, hp, he, hm⟩ :=
    approveRefund_ok_inv h
  obtain rfl := some_eq_some_unique hr0 hr
  obtain rfl := some_eq_some_unique hv0 hv
  exact ⟨v', hv', hb, hp, he, hm⟩

/-- Witness for C8 at the concrete refund (E = 5500, S = 5000, D = 500)
against the zero-balance vendor. -/
theorem approveRefund_delta_witness :
    ∃ v', getDoc c2DB1.users c2Refund.vendorId = some v' ∧
      v'.wallet.balance = c2Vendor.wallet.balance - c2Refund.vendorEarnings ∧
      v'.wallet.pendingBalance =
        c2Vendor.wallet.pendingBalance - c2Refund.vendorEarnings ∧
      v'.wallet.eligibleBalance = c2Vendor.wallet.eligibleBalance ∧
      getMonth v'.monthlySales "2025-10" =
        max (getMonth c2Vendor.monthlySales "2025-10" -
          (c2Refund.subtotal + c2Refund.deliveryFee)) 0 :=
  approveRefund_delta c2DB c2DB1 "2025-10" "t" gwOk "o1" "u1" 5500 c2Refund
    c2Vendor (by simp [c2DB, getDoc, List.find?]) (by simp [c2Refund])
    (by simp [c2DB, c2Refund, getDoc, List.find?]) c2DB1_ok

/-- C6 counterexample: in both approval handlers the payout-gateway calls
are issued strictly between the opening of the Firestore transaction callback
and its close — the store transaction is held open across the network
round-trip, contradicting the claim that the calls are never performed inside
an open transaction. -/
theorem gateway_inside_transaction_cex :
    insideOpenTransaction approveVendorWithdrawalTrace
      (Evt.gatewayCall "transferrecipient") ∧
    insideOpenTransaction approveVendorWithdrawalTrace
      (Evt.gatewayCall "transfer") ∧
    insideOpenTransaction approveRefundRequestTrace
      (Evt.gatewayCall "transferrecipient") ∧
    insideOpenTransaction approveRefundRequestTrace
      (Evt.gatewayCall "transfer") := by
  refine
    ⟨⟨[Evt.readDoc "withdrawalRequest", Evt.readDoc "users (vendor)",
        Evt.gatewayCall "transferrecipient", Evt.gatewayCall "transfer",
        Evt.writeDoc "withdrawalRequest", Evt.writeDoc "users (vendor)"],
      [], by decide, by decide⟩,
     ⟨[Evt.readDoc "withdrawalRequest", Evt.readDoc "users (vendor)",
        Evt.gatewayCall "transferrecipient", Evt.gatewayCall "transfer",
        Evt.writeDoc "withdrawalRequest", Evt.writeDoc "users (vendor)"],
      [], by decide, by decide⟩,
     ⟨[Evt.readDoc "refundRequests", Evt.readDoc "users (customer)",
        Evt.readDoc "users (vendor)", Evt.gatewayCall "transferrecipient",
        Evt.gatewayCall "transfer", Evt.writeDoc "refundRequests",
        Evt.writeDoc "users (customer)", Evt.writeDoc "users (vendor)"],
      [], by decide, by decide⟩,
     ⟨[Evt.readDoc "refundRequests", Evt.readDoc "users (customer)",
        Evt.readDoc "users (vendor)", Evt.gatewayCall "transferrecipient",
        Evt.gatewayCall "transfer", Evt.writeDoc "refundRequests",
        Evt.writeDoc "users (customer)", Evt.writeDoc "users (vendor)"],
      [], by decide, by decide⟩⟩

/-- C6 amended: the gateway calls do sit inside the open transaction
callback, but they are placed after every transactional read and before every
write: both approval traces are monotone in the
txBegin → reads → gateway calls → writes → commit phase order.  Because the
store buffers the writes until the callback returns, no write is persisted
before the gateway calls succeed, which is the property the design comment
aims at. -/
theorem gateway_between_reads_and_writes :
    List.Pairwise (fun a b => Evt.phase a ≤ Evt.phase b)
      approveVendorWithdrawalTrace ∧
    List.Pairwise (fun a b => Evt.phase a ≤ Evt.phase b)
      approveRefundRequestTrace := by
  constructor <;> decide

/-- The referral record created by `addReferralForVendor` on first use
(mirrors the `referralModel` literal in `referrals.utils.ts` lines 76-97). -/
def freshReferralModel (vendorId cust now : String) (vd : VendorDoc) :
    ReferralModel :=
  { vendorId := vendorId
    storeName := vd.name
    vendorLogoUrl :=
      (match vd.logoUrl with
       | some u => u
       | none => "")
    totalReferralPoints := 10
    weeklyReferralPoints := 10
    referralCode :=
      (match vd.referralCode with
       | some c => c
       | none => "")
    referredCustomersCount := 1
    successfulReferralsCount := 0
    referralHistory :=
      [{ referredCustomerId := cust, pointsEarned := 10, date := now }]
    lastReferralUpdate := now
    isActive := true
    totalRewardsClaimed := 0
    lastLeaderboardPosition := 0
    totalFeaturedSpots := 0 }

/-- Helper: a purchase by a customer with a signup history entry adds exactly
40 to both point totals. -/
theorem purchase_adds_40 (dbS : DB) (now2 vendorId cust orderId : String)
    (rec : ReferralModel)
    (hrec : getDoc dbS.referrals vendorId = some rec)
    (hhist : rec.referralHistory.any
      (fun h => h.referredCustomerId == cust) = true)
    (hvid : vendorId ≠ "") (hcust : cust ≠ "") (hord : orderId ≠ "") :
    ∃ dbS2 rec2,
      updateReferralPointsOnPurchase dbS now2 vendorId cust orderId =
        .ok dbS2 ∧
      getDoc dbS2.referrals vendorId = some rec2 ∧
      rec2.totalReferralPoints = rec.totalReferralPoints + 40 ∧
      rec2.weeklyReferralPoints = rec.weeklyReferralPoints + 40 := by
  have heval : updateReferralPointsOnPurchase dbS now2 vendorId cust orderId =
      .ok { dbS with referrals := (setDoc dbS.referrals vendorId
        { rec with
          totalReferralPoints := rec.totalReferralPoints + 40
          weeklyReferralPoints := rec.weeklyReferralPoints + 40
          successfulReferralsCount := rec.successfulReferralsCount + 1
          referralHistory := rec.referralHistory ++
            [{ referredCustomerId := cust, pointsEarned := 40, date := now2,
               orderId := some orderId }]
          lastReferralUpdate := now2 }) } := by
    simp [updateReferralPointsOnPurchase, hrec, hhist, hvid, hcust, hord]
  exact ⟨_, _, heval, getDoc_setDoc_self _ _ _, rfl, rfl⟩

/-- C9: for a vendor with no prior referral record, the first signup for a
referredCustomerId creates a record with
totalReferralPoints = weeklyReferralPoints = 10; a subsequent purchase by
that same customer adds 40 more to both (totals become 50); and a purchase
by any customer without a signup history entry fails `NotReferred`
(`failed-precondition`). -/
theorem referral_accrual_spec (dbS : DB) (now now2 : String)
    (vendorId cust orderId : String) (vd : VendorDoc)
    (hvd : getDoc dbS.vendors vendorId = some vd)
    (hnone : getDoc dbS.referrals vendorId = none)
    (hvid : vendorId ≠ "") (hcust : cust ≠ "") (hord : orderId ≠ "") :
    ∃ dbS1 rec1, addReferralForVendor dbS now vendorId cust = .ok dbS1 ∧
      getDoc dbS1.referrals vendorId = some rec1 ∧
      rec1.totalReferralPoints = 10 ∧ rec1.weeklyReferralPoints = 10 ∧
      (∃ dbS2 rec2,
        updateReferralPointsOnPurchase dbS1 now2 vendorId cust orderId =
          .ok dbS2 ∧
        getDoc dbS2.referrals vendorId = some rec2 ∧
        rec2.totalReferralPoints = 50 ∧ rec2.weeklyReferralPoints = 50) ∧
      (∀ cust2, cust2 ≠ "" → cust2 ≠ cust →
        updateReferralPointsOnPurchase dbS1 now2 vendorId cust2 orderId =
          .error (.failedPrecondition
            "Customer was not referred by this vendor")) := by
  have heval1 : addReferralForVendor dbS now vendorId cust = .ok
      { dbS with referrals := (setDoc dbS.referrals vendorId
          (freshReferralModel vendorId cust now vd)) } := by
    simp [addReferralForVendor, freshReferralModel, hvd, hnone, hvid, hcust]
  refine ⟨_, _, heval1, getDoc_setDoc_self _ _ _,
    by simp [freshReferralModel], by simp [freshReferralModel], ?_, ?_⟩
  · obtain ⟨dbS2, rec2, hok2, hget2, ht, hw⟩ := purchase_adds_40
      { dbS with referrals := (setDoc dbS.referrals vendorId
          (freshReferralModel vendorId cust now vd)) }
      now2 vendorId cust orderId (freshReferralModel vendorId cust now vd)
      (getDoc_setDoc_self _ _ _) (by simp [freshReferralModel]) hvid
      hcust hord
    exact ⟨dbS2, rec2, hok2, hget2,
      by rw [ht]; simp [freshReferralModel],
      by rw [hw]; simp [freshReferralModel]⟩
  · intro cust2 hc2 hne
    have hb : (cust == cust2) = false := beq_eq_false_iff_ne.mpr (Ne.symm hne)
    simp [updateReferralPointsOnPurchase, getDoc_setDoc_self,
      freshReferralModel, hvid, hc2, hord, hb]

/-- Concrete state for the referral witness: vendor `v1` exists, no referral
record yet. -/
def refDB0 : DB := { vendors := [("v1", { name := "Shop" })] }

/-- Witness for C9 at the concrete vendor `v1` and customer `cst`. -/
theorem referral_accrual_spec_witness :
    ∃ dbS1 rec1, addReferralForVendor refDB0 "t1" "v1" "cst" = .ok dbS1 ∧
      getDoc dbS1.referrals "v1" = some rec1 ∧
      rec1.totalReferralPoints = 10 ∧ rec1.weeklyReferralPoints = 10 ∧
      (∃ dbS2 rec2,
        updateReferralPointsOnPurchase dbS1 "t2" "v1" "cst" "ord" =
          .ok dbS2 ∧
        getDoc dbS2.referrals "v1" = some rec2 ∧
        rec2.totalReferralPoints = 50 ∧ rec2.weeklyReferralPoints = 50) ∧
      (∀ cust2, cust2 ≠ "" → cust2 ≠ "cst" →
        updateReferralPointsOnPurchase dbS1 "t2" "v1" cust2 "ord" =
          .error (.failedPrecondition
            "Customer was not referred by this vendor")) :=
  referral_accrual_spec refDB0 "t1" "t2" "v1" "cst" "ord" { name := "Shop" }
    (by simp [refDB0, getDoc, List.find?])
    (by simp [refDB0, getDoc, List.find?])
    (by decide) (by decide) (by decide)

end PanTrade
